import Mathlib

/-!
Verification of the fitness-tracker program (src/homework.py).

The program computes distance, mean speed and spent calories for three
workout types (running, sports walking, swimming), dispatches raw sensor
rows to the right variant by a three-letter code, and formats a summary
string with three decimal digits per numeric field.

Python floats are modelled as exact rationals (ℚ); Python float floor
division `//` is modelled with the mathematical integer floor; the
`str.format` fixed-point `.3f` rendering is modelled by rounding to the
nearest thousandth (ties to even, as Python does) and printing exactly
three fractional digits.
-/

/-- The class hierarchy `Training` / `Running` / `SportsWalking` / `Swimming`
as a closed sum: each constructor carries the fields set by the Python
`__init__` of the corresponding class. -/
inductive Training where
  | running (action : ℚ) (duration : ℚ) (weight : ℚ)
  | sportsWalking (action : ℚ) (duration : ℚ) (weight : ℚ) (height : ℚ)
  | swimming (action : ℚ) (duration : ℚ) (weight : ℚ)
      (length_pool : ℚ) (count_pool : ℚ)
deriving DecidableEq

/-- `Training.M_IN_KM = 1000`. -/
def M_IN_KM : ℚ := 1000

/-- `Training.HOUR = 60`. -/
def HOUR : ℚ := 60

/-- `Running.CALORIE_MULTIPLIER = 18`. -/
def Running.CALORIE_MULTIPLIER : ℚ := 18

/-- `Running.CALORIE_SUBSTRACTER = 20`. -/
def Running.CALORIE_SUBSTRACTER : ℚ := 20

/-- `SportsWalking.CALORIE_MULTIPLIER_1 = 0.035`. -/
def SportsWalking.CALORIE_MULTIPLIER_1 : ℚ := 0.035

/-- `SportsWalking.CALORIE_MULTIPLIER_2 = 0.029`. -/
def SportsWalking.CALORIE_MULTIPLIER_2 : ℚ := 0.029

/-- `Swimming.CALORIE_PLUSER = 1.1`. -/
def Swimming.CALORIE_PLUSER : ℚ := 1.1

/-- `Swimming.CALORIE_MULTIPLIER = 2`. -/
def Swimming.CALORIE_MULTIPLIER : ℚ := 2

/-- Class attribute `LEN_STEP`: `0.65` on the base class, overridden to
`1.38` by `Swimming`. -/
def Training.LEN_STEP : Training → ℚ
  | .swimming .. => 1.38
  | _ => 0.65

/-- Field `self.action`. -/
def Training.action : Training → ℚ
  | .running a _ _ => a
  | .sportsWalking a _ _ _ => a
  | .swimming a _ _ _ _ => a

/-- Field `self.duration`. -/
def Training.duration : Training → ℚ
  | .running _ d _ => d
  | .sportsWalking _ d _ _ => d
  | .swimming _ d _ _ _ => d

/-- Field `self.weight`. -/
def Training.weight : Training → ℚ
  | .running _ _ w => w
  | .sportsWalking _ _ w _ => w
  | .swimming _ _ w _ _ => w

/-- `Training.get_distance`: `self.action * self.LEN_STEP / self.M_IN_KM`.
Not overridden by any subclass. -/
def Training.get_distance (t : Training) : ℚ :=
  t.action * t.LEN_STEP / M_IN_KM

/-- `Training.get_mean_speed`: `self.get_distance() / self.duration`,
overridden by `Swimming` to
`self.length_pool * self.count_pool / self.M_IN_KM / self.duration`. -/
def Training.get_mean_speed : Training → ℚ
  | .swimming _ d _ lp cp => lp * cp / M_IN_KM / d
  | t => t.get_distance / t.duration

/-- `get_spent_calories`, the per-class overrides:
`Running`: `(CALORIE_MULTIPLIER * speed - CALORIE_SUBSTRACTER) * weight / M_IN_KM * (duration * HOUR)`;
`SportsWalking`: `(CALORIE_MULTIPLIER_1 * weight + (speed ** 2 // height) * CALORIE_MULTIPLIER_2 * weight) * (duration * HOUR)`
with Python float `//` modelled as the integer floor of the quotient;
`Swimming`: `(speed + CALORIE_PLUSER) * CALORIE_MULTIPLIER * weight`. -/
def Training.get_spent_calories : Training → ℚ
  | t@(.running ..) =>
      (Running.CALORIE_MULTIPLIER * t.get_mean_speed
          - Running.CALORIE_SUBSTRACTER)
        * t.weight / M_IN_KM * (t.duration * HOUR)
  | t@(.sportsWalking _ _ _ h) =>
      (SportsWalking.CALORIE_MULTIPLIER_1 * t.weight
          + (⌊t.get_mean_speed ^ 2 / h⌋ : ℚ)
            * SportsWalking.CALORIE_MULTIPLIER_2 * t.weight)
        * (t.duration * HOUR)
  | t@(.swimming ..) =>
      (t.get_mean_speed + Swimming.CALORIE_PLUSER)
        * Swimming.CALORIE_MULTIPLIER * t.weight

/-- `type(self).__name__`, the display name used by `show_training_info`. -/
def Training.type_name : Training → String
  | .running .. => "Running"
  | .sportsWalking .. => "SportsWalking"
  | .swimming .. => "Swimming"

/-- Discriminator: the workout is the `Swimming` variant. -/
def Training.isSwimming : Training → Bool
  | .swimming .. => true
  | _ => false

/-- Discriminator: the workout is the `Running` variant. -/
def Training.isRunning : Training → Bool
  | .running .. => true
  | _ => false

/-- Discriminator: the workout is the `SportsWalking` variant. -/
def Training.isSportsWalking : Training → Bool
  | .sportsWalking .. => true
  | _ => false

/-- The dataclass `InfoMessage`. -/
structure InfoMessage where
  training_type : String
  duration : ℚ
  distance : ℚ
  speed : ℚ
  calories : ℚ
deriving DecidableEq

/-- Round to the nearest integer, ties to even: the rounding Python's
fixed-point formatting applies to the scaled value. -/
def roundHalfEven (q : ℚ) : ℤ :=
  if q - ⌊q⌋ < 1/2 then ⌊q⌋
  else if 1/2 < q - ⌊q⌋ then ⌊q⌋ + 1
  else if ⌊q⌋ % 2 = 0 then ⌊q⌋ else ⌊q⌋ + 1

/-- The decimal digit character for `n % 10`. -/
def digitChar10 (n : ℕ) : Char := Char.ofNat (48 + n % 10)

/-- Exactly three zero-padded decimal digits of `m` (for `m < 1000`). -/
def pad3 (m : ℕ) : String :=
  String.mk [digitChar10 (m / 100), digitChar10 (m / 10), digitChar10 m]

/-- Python's `"{:.3f}".format(q)`: fixed-point, exactly three digits after
the decimal point, locale-independent dot. -/
def formatFixed3 (q : ℚ) : String :=
  (if roundHalfEven (q * 1000) < 0 then "-" else "")
    ++ toString ((roundHalfEven (q * 1000)).natAbs / 1000)
    ++ "."
    ++ pad3 ((roundHalfEven (q * 1000)).natAbs % 1000)

/-- `InfoMessage.get_message`: interpolates the five fields into the fixed
Russian template, rendering each numeric field with `{:.3f}`. -/
def InfoMessage.get_message (m : InfoMessage) : String :=
  "Тип тренировки: " ++ m.training_type
    ++ "; Длительность: " ++ formatFixed3 m.duration
    ++ " ч.; Дистанция: " ++ formatFixed3 m.distance
    ++ " км; Ср. скорость: " ++ formatFixed3 m.speed
    ++ " км/ч; Потрачено ккал: " ++ formatFixed3 m.calories
    ++ "."

/-- `Training.show_training_info`: builds the `InfoMessage` from the class
name, duration, distance, mean speed and spent calories. -/
def Training.show_training_info (t : Training) : InfoMessage :=
  ⟨t.type_name, t.duration, t.get_distance, t.get_mean_speed,
    t.get_spent_calories⟩

/-- The two failure modes of `read_package`: the `RuntimeError` raised for
an unknown code, and the `TypeError` Python raises when `*data` does not
match the constructor's arity. -/
inductive ReadError where
  | unknownWorkoutType
  | arityMismatch
deriving DecidableEq

/-- `Swimming(*data)`: succeeds exactly on a five-element row, binding the
fields positionally. -/
def Swimming.ofData : List ℚ → Option Training
  | [a, d, w, lp, cp] => some (.swimming a d w lp cp)
  | _ => none

/-- `Running(*data)`: succeeds exactly on a three-element row. -/
def Running.ofData : List ℚ → Option Training
  | [a, d, w] => some (.running a d w)
  | _ => none

/-- `SportsWalking(*data)`: succeeds exactly on a four-element row. -/
def SportsWalking.ofData : List ℚ → Option Training
  | [a, d, w, h] => some (.sportsWalking a d w h)
  | _ => none

/-- `WORKOUT_DICTIONARY = {"SWM": Swimming, "RUN": Running, "WLK": SportsWalking}`. -/
def WORKOUT_DICTIONARY : List (String × (List ℚ → Option Training)) :=
  [("SWM", Swimming.ofData), ("RUN", Running.ofData),
   ("WLK", SportsWalking.ofData)]

/-- `read_package`: raises `RuntimeError` when the code is not a key of
`WORKOUT_DICTIONARY`, otherwise calls the mapped constructor on the
unpacked row (an arity mismatch there is a `TypeError`). -/
def read_package (workout_type : String) (data : List ℚ) :
    Except ReadError Training :=
  match WORKOUT_DICTIONARY.lookup workout_type with
  | none => .error .unknownWorkoutType
  | some ctor =>
    match ctor data with
    | some t => .ok t
    | none => .error .arityMismatch

/-- Helper: `read_package` on code "SWM" is `Swimming(*data)`. -/
theorem read_package_SWM (data : List ℚ) :
    read_package "SWM" data
      = match Swimming.ofData data with
        | some t => .ok t
        | none => .error .arityMismatch := rfl

/-- Helper: `read_package` on code "RUN" is `Running(*data)`. -/
theorem read_package_RUN (data : List ℚ) :
    read_package "RUN" data
      = match Running.ofData data with
        | some t => .ok t
        | none => .error .arityMismatch := rfl

/-- Helper: `read_package` on code "WLK" is `SportsWalking(*data)`. -/
theorem read_package_WLK (data : List ℚ) :
    read_package "WLK" data
      = match SportsWalking.ofData data with
        | some t => .ok t
        | none => .error .arityMismatch := rfl

/-- Helper: a successful `Swimming(*data)` yields the swimming variant. -/
theorem Swimming.ofData_isSwimming (data : List ℚ) (t : Training)
    (h : Swimming.ofData data = some t) : t.isSwimming = true := by
  unfold Swimming.ofData at h
  split at h
  · cases h; rfl
  · cases h

/-- Helper: a successful `Running(*data)` yields the running variant. -/
theorem Running.ofData_isRunning (data : List ℚ) (t : Training)
    (h : Running.ofData data = some t) : t.isRunning = true := by
  unfold Running.ofData at h
  split at h
  · cases h; rfl
  · cases h

/-- Helper: a successful `SportsWalking(*data)` yields the walking variant. -/
theorem SportsWalking.ofData_isSportsWalking (data : List ℚ) (t : Training)
    (h : SportsWalking.ofData data = some t) : t.isSportsWalking = true := by
  unfold SportsWalking.ofData at h
  split at h
  · cases h; rfl
  · cases h

/-- C1: for every `Running` workout built from action `a`, duration `d` and
weight `w`, `get_spent_calories` equals
`(18 * speed - 20) * w / 1000 * (d * 60)` with
`speed = (a * 0.65 / 1000) / d`, and `Running` inherits the base
distance and mean-speed computations unchanged. -/
theorem running_calories_follow_spec_formula (a d w : ℚ) :
    (Training.running a d w).get_spent_calories
      = (18 * ((a * 0.65 / 1000) / d) - 20) * w / 1000 * (d * 60)
    ∧ (Training.running a d w).get_mean_speed = (a * 0.65 / 1000) / d
    ∧ (Training.running a d w).get_distance = a * 0.65 / 1000
    ∧ (Training.running a d w).get_mean_speed
        = (Training.running a d w).get_distance
            / (Training.running a d w).duration := by
  refine ⟨?_, ?_, ?_, ?_⟩ <;>
    norm_num [Training.get_spent_calories, Training.get_mean_speed,
      Training.get_distance, Training.LEN_STEP, Training.action,
      Training.duration, Training.weight, M_IN_KM, HOUR,
      Running.CALORIE_MULTIPLIER, Running.CALORIE_SUBSTRACTER]

/-- C2 (counterexample): the claim's value 694.575 for
`dispatch("RUN", [15000, 1, 75])` is wrong: the program yields exactly
699.75 calories, which misses 694.575 by 5.175 — far beyond any rounding
tolerance. -/
theorem run_scenario_calories_not_694_575 :
    (read_package "RUN" [15000, 1, 75]).map Training.get_spent_calories
        = .ok 699.75
    ∧ (699.75 : ℚ) ≠ 694.575
    ∧ |(699.75 : ℚ) - 694.575| = 5.175 := by
  refine ⟨?_, by norm_num, by norm_num⟩
  rw [show read_package "RUN" [15000, 1, 75] = .ok (.running 15000 1 75)
    from rfl]
  simp only [Except.map, Except.ok.injEq]
  norm_num [Training.get_spent_calories, Training.get_mean_speed,
    Training.get_distance, Training.LEN_STEP, Training.action,
    Training.duration, Training.weight, M_IN_KM, HOUR,
    Running.CALORIE_MULTIPLIER, Running.CALORIE_SUBSTRACTER]

/-- C2 (amended): `dispatch("RUN", [15000, 1, 75])` yields a workout with
distance 9.75 km, mean speed 9.75 km/h, and spent calories exactly
`(18 * 9.75 - 20) * 75 / 1000 * 60 = 699.75`. -/
theorem run_scenario_values :
    read_package "RUN" [15000, 1, 75] = .ok (.running 15000 1 75)
    ∧ (Training.running 15000 1 75).get_distance = 9.75
    ∧ (Training.running 15000 1 75).get_mean_speed = 9.75
    ∧ (Training.running 15000 1 75).get_spent_calories
        = (18 * 9.75 - 20) * 75 / 1000 * 60
    ∧ (Training.running 15000 1 75).get_spent_calories = 699.75 := by
  refine ⟨rfl, ?_, ?_, ?_, ?_⟩ <;>
    norm_num [Training.get_spent_calories, Training.get_mean_speed,
      Training.get_distance, Training.LEN_STEP, Training.action,
      Training.duration, Training.weight, M_IN_KM, HOUR,
      Running.CALORIE_MULTIPLIER, Running.CALORIE_SUBSTRACTER]

/-- C3: for every `SportsWalking` workout, `get_spent_calories` equals
`(0.035 * w + floor(speed^2 / h) * 0.029 * w) * (d * 60)` with the
mathematical integer floor, and `dispatch("WLK", [9000, 1, 75, 180])`
yields distance 5.85 km, speed 5.85 km/h and calories
`(0.035*75 + floor(5.85^2/180)*0.029*75) * 60`. -/
theorem sports_walking_calories_follow_spec_formula (a d w h : ℚ) :
    (Training.sportsWalking a d w h).get_spent_calories
      = (0.035 * w
          + (⌊(Training.sportsWalking a d w h).get_mean_speed ^ 2 / h⌋ : ℚ)
            * 0.029 * w) * (d * 60)
    ∧ read_package "WLK" [9000, 1, 75, 180] = .ok (.sportsWalking 9000 1 75 180)
    ∧ (Training.sportsWalking 9000 1 75 180).get_distance = 5.85
    ∧ (Training.sportsWalking 9000 1 75 180).get_mean_speed = 5.85
    ∧ (Training.sportsWalking 9000 1 75 180).get_spent_calories
        = (0.035 * 75 + (⌊(5.85 : ℚ) ^ 2 / 180⌋ : ℚ) * 0.029 * 75) * 60 := by
  refine ⟨?_, rfl, ?_, ?_, ?_⟩ <;>
    norm_num [Training.get_spent_calories, Training.get_mean_speed,
      Training.get_distance, Training.LEN_STEP, Training.action,
      Training.duration, Training.weight, M_IN_KM, HOUR,
      SportsWalking.CALORIE_MULTIPLIER_1, SportsWalking.CALORIE_MULTIPLIER_2]

/-- C4: for every `Swimming` workout with pool length `p`, lap count `c`,
duration `d` and weight `w`, the overridden mean speed is
`p * c / 1000 / d` (independent of the action count and step length) and
`get_spent_calories` is `(speed + 1.1) * 2 * w`; the sample
`dispatch("SWM", [720, 1, 80, 25, 40])` gives speed 1.0 and calories
336.0. -/
theorem swimming_speed_and_calories_follow_spec_formula (a d w p c : ℚ) :
    (Training.swimming a d w p c).get_mean_speed = p * c / 1000 / d
    ∧ (Training.swimming a d w p c).get_spent_calories
        = (p * c / 1000 / d + 1.1) * 2 * w
    ∧ read_package "SWM" [720, 1, 80, 25, 40] = .ok (.swimming 720 1 80 25 40)
    ∧ (Training.swimming 720 1 80 25 40).get_mean_speed = 1
    ∧ (Training.swimming 720 1 80 25 40).get_spent_calories = 336 := by
  refine ⟨?_, ?_, rfl, ?_, ?_⟩ <;>
    norm_num [Training.get_spent_calories, Training.get_mean_speed,
      Training.weight, M_IN_KM, Swimming.CALORIE_PLUSER,
      Swimming.CALORIE_MULTIPLIER]

/-- C5: `read_package` maps "SWM" to the swimming variant, "RUN" to
running, "WLK" to sports walking, and every other code to the
unknown-workout-type error, never defaulting silently. -/
theorem read_package_dispatches_by_code :
    (∀ (data : List ℚ) (t : Training),
        read_package "SWM" data = .ok t → t.isSwimming = true)
    ∧ (∀ (data : List ℚ) (t : Training),
        read_package "RUN" data = .ok t → t.isRunning = true)
    ∧ (∀ (data : List ℚ) (t : Training),
        read_package "WLK" data = .ok t → t.isSportsWalking = true)
    ∧ (∀ (code : String) (data : List ℚ),
        code ≠ "SWM" → code ≠ "RUN" → code ≠ "WLK" →
        read_package code data = .error .unknownWorkoutType) := by
  refine ⟨?_, ?_, ?_, ?_⟩
  · intro data t h
    rw [read_package_SWM] at h
    cases hd : Swimming.ofData data with
    | none => rw [hd] at h; cases h
    | some t0 =>
      rw [hd] at h
      cases h
      exact Swimming.ofData_isSwimming data _ hd
  · intro data t h
    rw [read_package_RUN] at h
    cases hd : Running.ofData data with
    | none => rw [hd] at h; cases h
    | some t0 =>
      rw [hd] at h
      cases h
      exact Running.ofData_isRunning data _ hd
  · intro data t h
    rw [read_package_WLK] at h
    cases hd : SportsWalking.ofData data with
    | none => rw [hd] at h; cases h
    | some t0 =>
      rw [hd] at h
      cases h
      exact SportsWalking.ofData_isSportsWalking data _ hd
  · intro code data h1 h2 h3
    have e1 : (code == "SWM") = false := by
      rw [beq_eq_false_iff_ne]; exact h1
    have e2 : (code == "RUN") = false := by
      rw [beq_eq_false_iff_ne]; exact h2
    have e3 : (code == "WLK") = false := by
      rw [beq_eq_false_iff_ne]; exact h3
    have hl : WORKOUT_DICTIONARY.lookup code = none := by
      simp [WORKOUT_DICTIONARY, List.lookup, e1, e2, e3]
    unfold read_package
    rw [hl]

/-- C5 (witness): "SWM" on the sample row yields the swimming variant, and
the unrecognized code "XYZ" yields the unknown-workout-type error. -/
theorem read_package_dispatches_by_code_witness :
    (Training.swimming 720 1 80 25 40).isSwimming = true
    ∧ read_package "XYZ" [720, 1, 80] = .error .unknownWorkoutType :=
  ⟨read_package_dispatches_by_code.1 [720, 1, 80, 25, 40]
      (.swimming 720 1 80 25 40) rfl,
    read_package_dispatches_by_code.2.2.2 "XYZ" [720, 1, 80]
      (by decide) (by decide) (by decide)⟩

/-- Helper: `Running(*data)` fails unless the row has exactly 3 fields. -/
theorem Running.ofData_none_unless_three (data : List ℚ) (h : data.length ≠ 3) :
    Running.ofData data = none := by
  rcases data with _ | ⟨a, _ | ⟨b, _ | ⟨c, _ | ⟨x, rest⟩⟩⟩⟩ <;>
    first
      | rfl
      | exact absurd rfl h

/-- Helper: `SportsWalking(*data)` fails unless the row has exactly 4
fields. -/
theorem SportsWalking.ofData_none_unless_four (data : List ℚ) (h : data.length ≠ 4) :
    SportsWalking.ofData data = none := by
  rcases data with _ | ⟨a, _ | ⟨b, _ | ⟨c, _ | ⟨x, _ | ⟨y, rest⟩⟩⟩⟩⟩ <;>
    first
      | rfl
      | exact absurd rfl h

/-- Helper: `Swimming(*data)` fails unless the row has exactly 5 fields. -/
theorem Swimming.ofData_none_unless_five (data : List ℚ) (h : data.length ≠ 5) :
    Swimming.ofData data = none := by
  rcases data with _ | ⟨a, _ | ⟨b, _ | ⟨c, _ | ⟨x, _ | ⟨y, _ | ⟨z, rest⟩⟩⟩⟩⟩⟩ <;>
    first
      | rfl
      | exact absurd rfl h

/-- C6: for each recognized code, `read_package` binds the row fields
positionally to the constructor parameters in declaration order, and a
row whose length differs from the variant's arity (3 for `Running`, 4 for
`SportsWalking`, 5 for `Swimming`) fails at construction with the arity
error — fields are never dropped or padded. -/
theorem read_package_binds_positionally :
    (∀ a d w : ℚ, read_package "RUN" [a, d, w] = .ok (.running a d w))
    ∧ (∀ a d w h : ℚ,
        read_package "WLK" [a, d, w, h] = .ok (.sportsWalking a d w h))
    ∧ (∀ a d w p c : ℚ,
        read_package "SWM" [a, d, w, p, c] = .ok (.swimming a d w p c))
    ∧ (∀ data : List ℚ, data.length ≠ 3 →
        read_package "RUN" data = .error .arityMismatch)
    ∧ (∀ data : List ℚ, data.length ≠ 4 →
        read_package "WLK" data = .error .arityMismatch)
    ∧ (∀ data : List ℚ, data.length ≠ 5 →
        read_package "SWM" data = .error .arityMismatch) := by
  refine ⟨fun a d w => rfl, fun a d w h => rfl, fun a d w p c => rfl,
    ?_, ?_, ?_⟩
  · intro data h
    rw [read_package_RUN, Running.ofData_none_unless_three data h]
  · intro data h
    rw [read_package_WLK, SportsWalking.ofData_none_unless_four data h]
  · intro data h
    rw [read_package_SWM, Swimming.ofData_none_unless_five data h]

/-- C6 (witness): exact-arity rows construct the matching variants, and a
short "RUN" row, a long "WLK" row and a one-field "SWM" row all fail with
the arity error. -/
theorem read_package_binds_positionally_witness :
    read_package "RUN" [15000, 1, 75] = .ok (.running 15000 1 75)
    ∧ read_package "WLK" [9000, 1, 75, 180] = .ok (.sportsWalking 9000 1 75 180)
    ∧ read_package "SWM" [720, 1, 80, 25, 40] = .ok (.swimming 720 1 80 25 40)
    ∧ read_package "RUN" [15000, 1] = .error .arityMismatch
    ∧ read_package "WLK" [9000, 1, 75, 180, 5] = .error .arityMismatch
    ∧ read_package "SWM" [720] = .error .arityMismatch :=
  ⟨read_package_binds_positionally.1 15000 1 75,
   read_package_binds_positionally.2.1 9000 1 75 180,
   read_package_binds_positionally.2.2.1 720 1 80 25 40,
   read_package_binds_positionally.2.2.2.1 [15000, 1] (by simp),
   read_package_binds_positionally.2.2.2.2.1 [9000, 1, 75, 180, 5] (by simp),
   read_package_binds_positionally.2.2.2.2.2 [720] (by simp)⟩

/-- Helper: the three-digit group always consists of digit characters. -/
theorem digitChar10_isDigit (n : ℕ) : (digitChar10 n).isDigit = true := by
  have h : n % 10 < 10 := Nat.mod_lt _ (by norm_num)
  unfold digitChar10
  set k := n % 10 with hk
  interval_cases k <;> decide

/-- Helper: `formatFixed3` always produces some prefix, then a dot, then
exactly three digit characters. -/
theorem formatFixed3_shape (q : ℚ) :
    ∃ s : String, ∃ d1 d2 d3 : Char,
      formatFixed3 q = s ++ "." ++ String.mk [d1, d2, d3]
      ∧ d1.isDigit = true ∧ d2.isDigit = true ∧ d3.isDigit = true := by
  refine ⟨(if roundHalfEven (q * 1000) < 0 then "-" else "")
      ++ toString ((roundHalfEven (q * 1000)).natAbs / 1000),
    digitChar10 ((roundHalfEven (q * 1000)).natAbs % 1000 / 100),
    digitChar10 ((roundHalfEven (q * 1000)).natAbs % 1000 / 10),
    digitChar10 ((roundHalfEven (q * 1000)).natAbs % 1000),
    ?_, digitChar10_isDigit _, digitChar10_isDigit _, digitChar10_isDigit _⟩
  rfl

/-- C7: `get_message` renders the four numeric fields through the
fixed-point three-decimal formatter; the formatter always emits a dot
followed by exactly three digit characters regardless of magnitude, and
0.468 renders as "0.468" (neither "0.5" nor "0.4680"). -/
theorem get_message_renders_three_decimals (m : InfoMessage) :
    m.get_message = "Тип тренировки: " ++ m.training_type
        ++ "; Длительность: " ++ formatFixed3 m.duration
        ++ " ч.; Дистанция: " ++ formatFixed3 m.distance
        ++ " км; Ср. скорость: " ++ formatFixed3 m.speed
        ++ " км/ч; Потрачено ккал: " ++ formatFixed3 m.calories ++ "."
    ∧ (∀ q : ℚ, ∃ s : String, ∃ d1 d2 d3 : Char,
        formatFixed3 q = s ++ "." ++ String.mk [d1, d2, d3]
        ∧ d1.isDigit = true ∧ d2.isDigit = true ∧ d3.isDigit = true)
    ∧ formatFixed3 0.468 = "0.468"
    ∧ formatFixed3 9.75 = "9.750" := by
  refine ⟨rfl, formatFixed3_shape, ?_, ?_⟩
  · have h : roundHalfEven ((0.468 : ℚ) * 1000) = 468 := by
      unfold roundHalfEven
      norm_num
    unfold formatFixed3
    rw [h]
    decide
  · have h : roundHalfEven ((9.75 : ℚ) * 1000) = 9750 := by
      unfold roundHalfEven
      norm_num
    unfold formatFixed3
    rw [h]
    decide

/-- C8: two `Swimming` workouts that agree on duration, weight, pool
length and lap count but differ in action count have identical mean speed
and identical spent calories. -/
theorem swimming_ignores_action_count (a a' d w p c : ℚ) :
    (Training.swimming a d w p c).get_mean_speed
        = (Training.swimming a' d w p c).get_mean_speed
    ∧ (Training.swimming a d w p c).get_spent_calories
        = (Training.swimming a' d w p c).get_spent_calories :=
  ⟨rfl, rfl⟩

/-- C9: `get_distance` is `action * LEN_STEP / 1000` with `LEN_STEP` 0.65
for running and walking and 1.38 for swimming; swimming's distance ignores
the pool fields, and on the sample "SWM" row it is 0.9936 km, which
differs from mean speed times duration (1 km). -/
theorem get_distance_uses_len_step (a d w h p c p2 c2 : ℚ) :
    (Training.running a d w).get_distance = a * 0.65 / 1000
    ∧ (Training.sportsWalking a d w h).get_distance = a * 0.65 / 1000
    ∧ (Training.swimming a d w p c).get_distance = a * 1.38 / 1000
    ∧ (Training.swimming a d w p c).get_distance
        = (Training.swimming a d w p2 c2).get_distance
    ∧ read_package "SWM" [720, 1, 80, 25, 40] = .ok (.swimming 720 1 80 25 40)
    ∧ (Training.swimming 720 1 80 25 40).get_distance = 0.9936
    ∧ (Training.swimming 720 1 80 25 40).get_mean_speed
        * (Training.swimming 720 1 80 25 40).duration = 1
    ∧ (0.9936 : ℚ) ≠ 1 := by
  refine ⟨?_, ?_, ?_, rfl, rfl, ?_, ?_, by norm_num⟩ <;>
    norm_num [Training.get_distance, Training.get_mean_speed,
      Training.LEN_STEP, Training.action, Training.duration, M_IN_KM]

/-- C10: there is a `Running` workout with strictly positive inputs whose
spent calories are negative (action 1000, duration 1, weight 75 gives
speed 0.65 and calories -37.35), and in general whenever the mean speed
is below 20/18 km/h the calorie result is negative — the program imposes
no lower bound of zero. -/
theorem running_calories_negative_at_low_speed :
    ((0 : ℚ) < 1000 ∧ (0 : ℚ) < 1 ∧ (0 : ℚ) < 75
      ∧ (Training.running 1000 1 75).get_mean_speed = 0.65
      ∧ (Training.running 1000 1 75).get_spent_calories = -37.35
      ∧ (Training.running 1000 1 75).get_spent_calories < 0)
    ∧ ∀ a d w : ℚ, 0 < d → 0 < w →
        (Training.running a d w).get_mean_speed < 20 / 18 →
        (Training.running a d w).get_spent_calories < 0 := by
  constructor
  · refine ⟨by norm_num, by norm_num, by norm_num, ?_, ?_, ?_⟩ <;>
      norm_num [Training.get_spent_calories, Training.get_mean_speed,
        Training.get_distance, Training.LEN_STEP, Training.action,
        Training.duration, Training.weight, M_IN_KM, HOUR,
        Running.CALORIE_MULTIPLIER, Running.CALORIE_SUBSTRACTER]
  · intro a d w hd hw hs
    have hform : (Training.running a d w).get_spent_calories
        = (18 * (Training.running a d w).get_mean_speed - 20)
            * w / 1000 * (d * 60) := by
      norm_num [Training.get_spent_calories, Training.weight,
        Training.duration, M_IN_KM, HOUR, Running.CALORIE_MULTIPLIER,
        Running.CALORIE_SUBSTRACTER]
    rw [hform]
    have h1 : 18 * (Training.running a d w).get_mean_speed - 20 < 0 := by
      linarith
    have h2 : (0 : ℚ) < w / 1000 * (d * 60) := by
      nlinarith [mul_pos hw hd]
    calc (18 * (Training.running a d w).get_mean_speed - 20)
            * w / 1000 * (d * 60)
        = (18 * (Training.running a d w).get_mean_speed - 20)
            * (w / 1000 * (d * 60)) := by ring
      _ < 0 := mul_neg_of_neg_of_pos h1 h2

/-- C10 (witness): the concrete low-speed run (action 1000, duration 1,
weight 75) indeed burns a negative calorie count. -/
theorem running_calories_negative_at_low_speed_witness :
    (Training.running 1000 1 75).get_spent_calories < 0 :=
  running_calories_negative_at_low_speed.2 1000 1 75 (by norm_num)
    (by norm_num)
    (by norm_num [Training.get_mean_speed, Training.get_distance,
      Training.LEN_STEP, Training.action, Training.duration, M_IN_KM])
